import Mathlib

/-
Shallow embedding of the lease-payment-orchestration backend in Lean 4,
checked against the natural-language specification.

Conventions of the embedding:
- money amounts are integers in cents (the source stores Numeric(_,2)
  decimals; Decimal arithmetic at two fractional digits is exact integer
  arithmetic on cents, and the default quantize rounding ROUND_HALF_EVEN
  becomes round-half-even integer division);
- fallible Python code (raising exceptions) is modelled with Except PyExc;
- the per-lease slice of the database is an explicit record threaded
  through the operations; timestamps are natural numbers.
-/

namespace LeaseOrch

/-- Python exceptions raised by the modelled code paths. The constructor
immutableLedgerError models the typed error the specification demands of
the ledger; the source itself never defines or raises it. -/
inductive PyExc
  | valueError (msg : String)
  | notImplementedError (msg : String)
  | immutableLedgerError (msg : String)
  | validationError (msg : String)
deriving DecidableEq, Repr

/-- Boolean success test for an Except value. -/
def isOkE {α : Type} : Except PyExc α → Bool
  | .ok _ => true
  | .error _ => false

/-- Lease statuses, from shared/models/lease.py. -/
inductive LeaseStatus
  | PENDING
  | ACTIVE
  | COMPLETED
  | DEFAULTED
deriving DecidableEq, Repr

/-- Payment statuses, from shared/models/payment.py. -/
inductive PaymentStatus
  | PENDING
  | PAID
  | FAILED
  | CANCELLED
deriving DecidableEq, Repr

/-- Transition table LeaseStateMachine.VALID_TRANSITIONS from
services/lease_service/domain/lease_service.py. -/
def VALID_TRANSITIONS : LeaseStatus → List LeaseStatus
  | .PENDING => [.ACTIVE]
  | .ACTIVE => [.COMPLETED, .DEFAULTED]
  | .COMPLETED => []
  | .DEFAULTED => []

/-- LeaseStateMachine.can_transition. -/
def can_transition (f t : LeaseStatus) : Bool :=
  (VALID_TRANSITIONS f).contains t

/-- LeaseStateMachine.validate_transition: raises ValueError when the
transition is not allowed. -/
def validate_transition (f t : LeaseStatus) : Except PyExc Unit :=
  if can_transition f t then .ok () else .error (.valueError "Invalid transition")

/-- Per-lease slice of the database state seen by the coordinator calls:
the lease row status, the payment rows (by status), and the ledger rows
for this lease (recorded by event type, which is all the claims need). -/
structure LeaseSt where
  status : LeaseStatus
  payments : List PaymentStatus
  ledger : List String
deriving DecidableEq, Repr

/-- LeaseService.update_lease_status: validate the transition against the
state machine, then write the new status. On a ValueError nothing is
written (validation precedes the update in the source). -/
def update_lease_status (st : LeaseSt) (new : LeaseStatus) : Except PyExc LeaseSt :=
  match validate_transition st.status new with
  | .error e => .error e
  | .ok _ => .ok { st with status := new }

/-- PaymentRepository.get_next_payment: first PENDING payment, if any.
Index suffices for the model; the source orders by due date. -/
def get_next_payment (st : LeaseSt) : Option Nat :=
  st.payments.findIdx? (· == PaymentStatus.PENDING)

/-- LeaseService.check_and_activate: activate a PENDING lease once a
payment is scheduled. -/
def check_and_activate (st : LeaseSt) : Except PyExc (Bool × LeaseSt) :=
  if st.status = .PENDING then
    match get_next_payment st with
    | none => .ok (false, st)
    | some _ =>
      match update_lease_status st .ACTIVE with
      | .error e => .error e
      | .ok st1 => .ok (true, st1)
  else .ok (false, st)

/-- LeaseService.check_and_complete: on an ACTIVE lease with no PENDING
and no FAILED payments remaining, the source first commits the status
change to COMPLETED via update_lease_status, then constructs
LeaseCompletedEvent with only lease_id and customer_id — but the schema
(shared/events/schemas.py) declares total_paid as a required field with
no default, so pydantic raises ValidationError there, before
persist_lease_completed runs: no LEASE_COMPLETED ledger entry is ever
appended and true is never returned on this branch. The error carries
the database state at the point the exception propagates (the status
commit has already happened; the ledger is untouched). -/
def check_and_complete (st : LeaseSt) : Except (PyExc × LeaseSt) (Bool × LeaseSt) :=
  if st.status = .ACTIVE then
    let pending_count := st.payments.count PaymentStatus.PENDING
    let failed_count := st.payments.count PaymentStatus.FAILED
    if pending_count > 0 ∨ failed_count > 0 then .ok (false, st)
    else
      match update_lease_status st .COMPLETED with
      | .error e => .error (e, st)
      | .ok st1 =>
        .error (.validationError "LeaseCompletedEvent: field required: total_paid", st1)
  else .ok (false, st)

/-- LeaseService.check_and_default: default a PENDING or ACTIVE lease with
at least three FAILED payments. Faithful to the source: the guard admits
PENDING, the transition goes through update_lease_status (state-machine
validated), and no ledger event is appended on the default path. -/
def check_and_default (st : LeaseSt) : Except PyExc (Bool × LeaseSt) :=
  if st.status = .ACTIVE ∨ st.status = .PENDING then
    let failed_count := st.payments.count PaymentStatus.FAILED
    if failed_count < 3 then .ok (false, st)
    else
      match update_lease_status st .DEFAULTED with
      | .error e => .error e
      | .ok st1 => .ok (true, st1)
  else .ok (false, st)

/-- Operations a caller can issue against one lease, for the
terminal-state absorption claim. -/
inductive LeaseOp
  | updateStatus (s : LeaseStatus)
  | checkActivate
  | checkComplete
  | checkDefault
deriving DecidableEq, Repr

/-- Resulting database state of one call. For update_lease_status,
check_and_activate and check_and_default a raised exception leaves the
state unchanged (their raises precede any write in the source);
check_and_complete's error carries the state at the raise, since its
ValidationError fires after the status commit. -/
def runOp (st : LeaseSt) (op : LeaseOp) : LeaseSt :=
  match op with
  | .updateStatus s =>
    match update_lease_status st s with
    | .ok st1 => st1
    | .error _ => st
  | .checkActivate =>
    match check_and_activate st with
    | .ok (_, st1) => st1
    | .error _ => st
  | .checkComplete =>
    match check_and_complete st with
    | .ok (_, st1) => st1
    | .error (_, st1) => st1
  | .checkDefault =>
    match check_and_default st with
    | .ok (_, st1) => st1
    | .error _ => st

/-- Sequential execution of a list of calls. -/
def runOps (st : LeaseSt) (ops : List LeaseOp) : LeaseSt :=
  ops.foldl runOp st

/-- Round-half-even integer division: the value of Decimal
quantize("0.01") with the default ROUND_HALF_EVEN mode, applied to the
cents-scaled quotient a / b (b positive). -/
def roundHalfEven (a b : Nat) : Nat :=
  let q := a / b
  let r := a % b
  if 2 * r < b then q
  else if b < 2 * r then q + 1
  else if q % 2 = 0 then q else q + 1

/-- One row of the generated schedule: installment number, due-date offset
in days from the start date, amount in cents. -/
structure Installment where
  number : Nat
  due_offset_days : Nat
  amount : Int
deriving DecidableEq, Repr

/-- PaymentScheduleGenerator.generate_equal_installments from
services/lease_service/domain/payment_schedule_generator.py: equal
monthly installments of quantize(principal / term) cents, with the final
installment adjusted to principal minus the sum of the previous ones.
Guards exactly as in the source: term <= 0 and principal <= 0 raise
ValueError; there is no upper bound check on the term here. -/
def generate_equal_installments (principal : Int) (term : Nat) : Except PyExc (List Installment) :=
  if term ≤ 0 then .error (.valueError "Term must be greater than 0")
  else if principal ≤ 0 then .error (.valueError "Principal amount must be greater than 0")
  else
    let monthly : Int := Int.ofNat (roundHalfEven principal.toNat term)
    .ok ((List.range term).map (fun i =>
      ⟨i + 1, 30 * i,
        if i + 1 = term then principal - monthly * Int.ofNat (term - 1) else monthly⟩))

/-- Sum of the amounts of a schedule, in cents. -/
def sumAmounts (s : List Installment) : Int :=
  (s.map (fun i => i.amount)).sum

/-- Amount of the last installment of a schedule (0 for the empty list,
which the generator never returns on valid input). -/
def lastAmount (s : List Installment) : Int :=
  ((s.getLast?).map (fun i => i.amount)).getD 0

/-- LeaseService._validate_lease_inputs: principal must be positive and
the term must lie in 1..60. -/
def validate_lease_inputs (principal : Int) (term : Nat) : Except PyExc Unit :=
  if principal ≤ 0 then .error (.valueError "Principal amount must be positive")
  else if ¬ (1 ≤ term ∧ term ≤ 60) then .error (.valueError "Term must be between 1 and 60 months")
  else .ok ()

/-- Row of the idempotency_keys table (shared/models/idempotency.py); the
response payload is modelled by the created lease id rendered to a
string. -/
structure IdemEntry where
  key : String
  operation : String
  response_payload : Option String
  expires_at : Nat
deriving DecidableEq, Repr

/-- Database state touched by LeaseService.create_lease: the idempotency
store, the lease table (ids allocated sequentially), the schedule rows,
and the ledger (lease id and event type per entry). Event-bus publishes
are external side effects and are not part of the stored state. -/
structure OrchSt where
  idem : List IdemEntry
  nextLeaseId : Nat
  leases : List (Nat × LeaseStatus)
  schedules : List (Nat × Nat × Int)
  ledger : List (Nat × String)
deriving DecidableEq, Repr

/-- Initial empty database. -/
def emptyOrch : OrchSt := ⟨[], 0, [], [], []⟩

/-- IdempotencyRepository.check_and_store: a stored, unexpired key is a
duplicate and returns the cached response; an expired key is deleted and
re-stored; a new key is stored. Returns (is_duplicate, cached_response)
and the updated store. -/
def check_and_store (now : Nat) (key operation : String) (resp : Option String)
    (ttl_seconds : Nat) (st : OrchSt) : (Bool × Option String) × OrchSt :=
  match st.idem.find? (fun e => e.key == key) with
  | some e =>
    if now < e.expires_at then ((true, e.response_payload), st)
    else
      ((false, none),
        { st with idem := (st.idem.filter (fun x => ¬ x.key == key))
            ++ [⟨key, operation, resp, now + ttl_seconds⟩] })
  | none =>
    ((false, none),
      { st with idem := st.idem ++ [⟨key, operation, resp, now + ttl_seconds⟩] })

/-- IdempotencyRepository.store_response: writes the response payload of
the entry with the given key. -/
def store_response (key : String) (resp : String) (st : OrchSt) : OrchSt :=
  { st with idem := st.idem.map (fun e =>
      if e.key == key then { e with response_payload := some resp } else e) }

/-- LeaseService.create_lease: validate, consult the idempotency store
(the duplicate branch of the source only logs and falls through), then
unconditionally create a fresh lease row, its schedule rows, a
LEASE_CREATED ledger entry, and finally cache the response under the
key. Returns the id of the lease created by this call. -/
def create_lease (now : Nat) (customer_id : String) (principal : Int) (term : Nat)
    (idempotency_key : String) (st : OrchSt) : Except PyExc (Nat × OrchSt) := do
  _ ← validate_lease_inputs principal term
  let ((_is_duplicate, _cached), st1) :=
    check_and_store now idempotency_key "CREATE_LEASE" none 86400 st
  let leaseId := st1.nextLeaseId
  let st2 := { st1 with
    nextLeaseId := st1.nextLeaseId + 1,
    leases := st1.leases ++ [(leaseId, LeaseStatus.PENDING)] }
  let schedule ← generate_equal_installments principal term
  let st3 := { st2 with
    schedules := st2.schedules ++ schedule.map (fun (i : Installment) => (leaseId, i.number, i.amount)) }
  let st4 := { st3 with ledger := st3.ledger ++ [(leaseId, "LEASE_CREATED")] }
  let st5 := store_response idempotency_key (toString leaseId) st4
  return (leaseId, st5)

/-- Pair of lease ids returned by two create_lease calls with identical
inputs and the same idempotency key on a fresh store, together with the
number of LEASE_CREATED ledger entries afterwards. -/
def c1_run : Option (Nat × Nat × Nat) :=
  match create_lease 0 "CUST-002" 30000 3 "idem-lease-idempotent" emptyOrch with
  | .error _ => none
  | .ok (id1, st1) =>
    match create_lease 0 "CUST-002" 30000 3 "idem-lease-idempotent" st1 with
    | .error _ => none
    | .ok (id2, st2) =>
      some (id1, id2, (st2.ledger.filter (fun p => p.2 == "LEASE_CREATED")).length)

namespace LedgerRepository

/-- LedgerRepository.delete from shared/repositories/ledger.py: always
raises NotImplementedError, whatever the entry id. -/
def delete (_id : Int) : Except PyExc Unit :=
  .error (.notImplementedError "Cannot delete from append-only ledger. Ledger is immutable.")

/-- LedgerRepository.update from shared/repositories/ledger.py: always
raises NotImplementedError, whatever the entry id and keyword
arguments. -/
def update (_id : Int) (_kwargs : List (String × String)) : Except PyExc Unit :=
  .error (.notImplementedError "Cannot update append-only ledger. Ledger is immutable.")

end LedgerRepository

/-- Test whether a modelled call raised the typed ImmutableLedgerError
the specification demands. -/
def raisesImmutableLedgerError {α : Type} : Except PyExc α → Bool
  | .error (.immutableLedgerError _) => true
  | _ => false

/-- Test whether a modelled call raised NotImplementedError. -/
def raisesNotImplementedError {α : Type} : Except PyExc α → Bool
  | .error (.notImplementedError _) => true
  | _ => false

/-- RetryConfig from shared/retry_manager.py. Delays are exact rationals;
the source uses Python ints and floats, whose arithmetic is exact at
these magnitudes. -/
structure RetryConfig where
  max_retries : Nat
  base_delay_seconds : ℚ
  max_delay_seconds : ℚ
  backoff_multiplier : ℚ
  jitter : Bool
deriving DecidableEq, Repr

/-- Python int(): truncation toward zero. -/
def pyInt (q : ℚ) : Int :=
  if 0 ≤ q then ⌊q⌋ else -⌊-q⌋

/-- Capped exponential delay before jitter:
min(base * multiplier ^ attempt, max_delay). -/
def rawDelay (c : RetryConfig) (attempt_number : Nat) : ℚ :=
  min (c.base_delay_seconds * c.backoff_multiplier ^ attempt_number) c.max_delay_seconds

/-- RetryConfig.calculate_delay: cap the exponential delay, then, if
jitter is enabled, add the sampled jitter j (the source draws j uniformly
from [0, 0.1 * delay]; j is passed explicitly here), and truncate to an
int. Note the jitter is added after the cap is applied. -/
def calculate_delay (c : RetryConfig) (attempt_number : Nat) (j : ℚ) : Int :=
  pyInt (rawDelay c attempt_number + (if c.jitter then j else 0))

/-- Default RetryConfig() of the source, with jitter on. -/
def default_retry_config : RetryConfig := ⟨3, 60, 3600, 2, true⟩

/-- Default configuration with jitter disabled. -/
def cfgNoJit : RetryConfig := ⟨3, 60, 3600, 2, false⟩

/-- Configuration with a backoff multiplier below one and jitter
disabled. -/
def cfgHalf : RetryConfig := ⟨3, 100, 3600, 1/2, false⟩

/-- Payload fields of a ledger event that the state fold reads. The
source reads them with dict.get; the model carries them as plain
fields. -/
structure EventPayload where
  lease_id : String
  customer_id : String
  principal_amount : Int
  term_months : Nat
  amount : Int
deriving DecidableEq, Repr

/-- Row of the ledger as seen by the reconstructor: event type, creation
timestamp, payload. -/
structure LedgerEvent where
  event_type : String
  created_at : Nat
  payload : EventPayload
deriving DecidableEq, Repr

/-- Projection built by HistoricalStateReconstructor.reconstruct_lease_state
(services/ledger_service/domain/ledger_service.py). -/
structure LeaseProjection where
  lease_id : Option String
  customer_id : Option String
  status : String
  principal_amount : Int
  term_months : Nat
  total_paid : Int
  paid_installments : Nat
  failed_attempts : Nat
  event_count : Nat
deriving DecidableEq, Repr

/-- Initial projection of the fold: status PENDING, numeric fields zero,
identifiers null. -/
def initialProjection : LeaseProjection :=
  ⟨none, none, "PENDING", 0, 0, 0, 0, 0, 0⟩

/-- One step of the source fold: bump event_count, then dispatch on the
event type. PAYMENT_SUCCEEDED overwrites total_paid with the event
amount (the source quirk); unlisted event types change nothing else. -/
def applyEvent (s : LeaseProjection) (e : LedgerEvent) : LeaseProjection :=
  let s1 := { s with event_count := s.event_count + 1 }
  if e.event_type = "LEASE_CREATED" then
    { s1 with
      lease_id := some e.payload.lease_id,
      customer_id := some e.payload.customer_id,
      principal_amount := e.payload.principal_amount,
      term_months := e.payload.term_months,
      status := "ACTIVE" }
  else if e.event_type = "PAYMENT_SUCCEEDED" then
    { s1 with
      total_paid := e.payload.amount,
      paid_installments := s1.paid_installments + 1 }
  else if e.event_type = "PAYMENT_FAILED" then
    { s1 with failed_attempts := s1.failed_attempts + 1 }
  else if e.event_type = "LEASE_COMPLETED" then
    { s1 with status := "COMPLETED" }
  else if e.event_type = "LEASE_DEFAULTED" then
    { s1 with status := "DEFAULTED" }
  else s1

/-- Loop of reconstruct_lease_state: the source BREAKS at the first event
whose created_at exceeds point_in_time, returning the state accumulated
so far. -/
def reconstructAux (pit : Option Nat) : LeaseProjection → List LedgerEvent → LeaseProjection
  | s, [] => s
  | s, e :: rest =>
    match pit with
    | some t => if t < e.created_at then s else reconstructAux (some t) (applyEvent s e) rest
    | none => reconstructAux none (applyEvent s e) rest

/-- HistoricalStateReconstructor.reconstruct_lease_state: fold the events
from the initial projection, honouring the point_in_time boundary. The
final float conversion of the source is identity in this integer-cents
model. -/
def reconstruct_lease_state (events : List LedgerEvent) (point_in_time : Option Nat) : LeaseProjection :=
  reconstructAux point_in_time initialProjection events

/-- Cutoff predicate of the specification: an event is applied iff it is
not past the boundary. -/
def withinCutoff (pit : Option Nat) (e : LedgerEvent) : Bool :=
  match pit with
  | some t => decide (e.created_at ≤ t)
  | none => true

/-- Specification-side transition table of the fold, written from the
event-to-transition table of spec section 4.3: the listed event types
update the projection as tabled (including the PAYMENT_SUCCEEDED
overwrite quirk the spec documents), unlisted types leave it unchanged,
and eventCount increments on every applied event. -/
def applyEventSpec (s : LeaseProjection) (e : LedgerEvent) : LeaseProjection :=
  let s1 :=
    if e.event_type = "LEASE_CREATED" then
      { s with
        lease_id := some e.payload.lease_id,
        customer_id := some e.payload.customer_id,
        principal_amount := e.payload.principal_amount,
        term_months := e.payload.term_months,
        status := "ACTIVE" }
    else if e.event_type = "PAYMENT_SCHEDULED" then s
    else if e.event_type = "PAYMENT_ATTEMPTED" then s
    else if e.event_type = "PAYMENT_SUCCEEDED" then
      { s with
        total_paid := e.payload.amount,
        paid_installments := s.paid_installments + 1 }
    else if e.event_type = "PAYMENT_FAILED" then
      { s with failed_attempts := s.failed_attempts + 1 }
    else if e.event_type = "LEASE_COMPLETED" then
      { s with status := "COMPLETED" }
    else if e.event_type = "LEASE_DEFAULTED" then
      { s with status := "DEFAULTED" }
    else s
  { s1 with event_count := s.event_count + 1 }

/-- Specification-side fold of spec section 4.3: apply the table in
sequence order, SKIPPING every event past the boundary. -/
def foldSpec (events : List LedgerEvent) (pit : Option Nat) : LeaseProjection :=
  (events.filter (withinCutoff pit)).foldl applyEventSpec initialProjection

/-- Payload with all fields zeroed, for events whose payload the fold
ignores. -/
def blankPayload : EventPayload := ⟨"", "", 0, 0, 0⟩

/-- C1. Lease creation is NOT idempotent in the source: from a fresh
store, two create_lease calls with the same idempotency key and the same
inputs create two distinct leases (ids 0 and 1) and leave two
LEASE_CREATED ledger entries, because the duplicate branch of the source
only logs and falls through. This contradicts the spec (S6) and the
repository's own test, which asserts the two returned lease ids are
equal. -/
theorem c1_create_lease_not_idempotent : c1_run = some (0, 1, 2) := by decide

/-- C2. A PENDING lease with three FAILED payments is NOT defaulted:
check_and_default passes its own guard (which admits PENDING) but then
raises ValueError from the state-machine validation, because
VALID_TRANSITIONS only allows PENDING to ACTIVE. The call neither
transitions the lease nor returns true. -/
theorem c2_pending_default_raises :
    check_and_default ⟨.PENDING, [.FAILED, .FAILED, .FAILED], []⟩
      = .error (PyExc.valueError "Invalid transition") := by rfl

/-- C3. Neither successful terminal transition writes its ledger event.
An ACTIVE lease with three FAILED payments is defaulted (returns true)
with the ledger left untouched, so no LEASE_DEFAULTED entry exists
afterwards. An ACTIVE lease with all payments PAID has its status
committed to COMPLETED but then check_and_complete raises pydantic
ValidationError constructing LeaseCompletedEvent without the required
total_paid field, before persist_lease_completed runs: no
LEASE_COMPLETED entry is appended and true is never returned either. -/
theorem c3_terminal_transitions_write_no_ledger_event :
    check_and_default ⟨.ACTIVE, [.FAILED, .FAILED, .FAILED], []⟩
      = .ok (true, ⟨.DEFAULTED, [.FAILED, .FAILED, .FAILED], []⟩)
    ∧ (⟨.DEFAULTED, [.FAILED, .FAILED, .FAILED], []⟩ : LeaseSt).ledger.count "LEASE_DEFAULTED" = 0
    ∧ check_and_complete ⟨.ACTIVE, [.PAID, .PAID], []⟩
      = .error (PyExc.validationError "LeaseCompletedEvent: field required: total_paid",
          ⟨.COMPLETED, [.PAID, .PAID], []⟩)
    ∧ (⟨.COMPLETED, [.PAID, .PAID], []⟩ : LeaseSt).ledger.count "LEASE_COMPLETED" = 0 := by
  refine ⟨by rfl, by rfl, by rfl, by rfl⟩

/-- C6 counterexample. The ledger repository's delete (and update) does
not raise the typed ImmutableLedgerError the claim states: at entry id 1
both raise NotImplementedError instead (no ImmutableLedgerError type
exists anywhere in the source). -/
theorem c6_counterexample_not_typed_error :
    raisesImmutableLedgerError (LedgerRepository.delete 1) = false
    ∧ raisesImmutableLedgerError (LedgerRepository.update 1 []) = false := by
  exact ⟨rfl, rfl⟩

/-- C6 amended. For every entry id and every argument set, the ledger
repository's update and delete raise NotImplementedError (no update or
delete on a ledger entry ever succeeds). -/
theorem c6_amended_always_not_implemented (id : Int) (kwargs : List (String × String)) :
    raisesNotImplementedError (LedgerRepository.delete id) = true
    ∧ raisesNotImplementedError (LedgerRepository.update id kwargs) = true
    ∧ isOkE (LedgerRepository.delete id) = false
    ∧ isOkE (LedgerRepository.update id kwargs) = false := by
  exact ⟨rfl, rfl, rfl, rfl⟩

/-- C9 counterexample. The schedule generator does not enforce the upper
term bound: with principal 100.00 and termMonths 61 (outside 1..60),
generate_equal_installments succeeds and returns a schedule instead of
raising a validation error. -/
theorem c9_counterexample_term_61_accepted :
    isOkE (generate_equal_installments 10000 61) = true := by decide

/-- C9 amended. The generator itself only rejects principal <= 0 and
termMonths <= 0; the full precondition (principal > 0 and
1 <= termMonths <= 60) is enforced by LeaseService._validate_lease_inputs,
which create_lease runs before invoking the generator. -/
theorem c9_amended_guards (principal : Int) (term : Nat) :
    ((principal ≤ 0 ∨ term = 0) → isOkE (generate_equal_installments principal term) = false)
    ∧ ((principal ≤ 0 ∨ term < 1 ∨ 60 < term) →
        isOkE (validate_lease_inputs principal term) = false) := by
  constructor
  · intro h
    unfold generate_equal_installments
    rcases h with h | h
    · rcases Nat.eq_zero_or_pos term with h0 | h0
      · rw [if_pos (by omega)]; rfl
      · rw [if_neg (by omega), if_pos h]; rfl
    · rw [if_pos (by omega)]; rfl
  · intro h
    unfold validate_lease_inputs
    rcases le_or_lt principal 0 with h0 | h0
    · rw [if_pos h0]; rfl
    · have hterm : ¬ (1 ≤ term ∧ term ≤ 60) := by
        rcases h with h | h | h
        · exact absurd h (by omega)
        · omega
        · omega
      rw [if_neg (by omega), if_pos hterm]
      rfl

/-- C9 amended, witness: the generator rejects principal -5.00 with term
12, and the service validator rejects term 61. -/
theorem c9_amended_guards_witness :
    isOkE (generate_equal_installments (-500) 12) = false
    ∧ isOkE (validate_lease_inputs 10000 61) = false :=
  ⟨(c9_amended_guards (-500) 12).1 (Or.inl (by decide)),
   (c9_amended_guards 10000 61).2 (Or.inr (Or.inr (by decide)))⟩

/-- C10. Frame property of the fold: an event whose type is none of
LEASE_CREATED, PAYMENT_SUCCEEDED, PAYMENT_FAILED, LEASE_COMPLETED,
LEASE_DEFAULTED (this includes PAYMENT_SCHEDULED, PAYMENT_ATTEMPTED and
every unrecognized type) changes no projection field except event_count,
which increments by exactly one. -/
theorem c10_frame_unknown_event_types (s : LeaseProjection) (e : LedgerEvent)
    (h1 : e.event_type ≠ "LEASE_CREATED")
    (h2 : e.event_type ≠ "PAYMENT_SUCCEEDED")
    (h3 : e.event_type ≠ "PAYMENT_FAILED")
    (h4 : e.event_type ≠ "LEASE_COMPLETED")
    (h5 : e.event_type ≠ "LEASE_DEFAULTED") :
    applyEvent s e = { s with event_count := s.event_count + 1 } := by
  simp [applyEvent, h1, h2, h3, h4, h5]

/-- C10 witness: a PAYMENT_SCHEDULED event applied to the initial
projection only bumps event_count. -/
theorem c10_frame_witness :
    applyEvent initialProjection ⟨"PAYMENT_SCHEDULED", 0, blankPayload⟩
      = { initialProjection with event_count := initialProjection.event_count + 1 } :=
  c10_frame_unknown_event_types initialProjection ⟨"PAYMENT_SCHEDULED", 0, blankPayload⟩
    (by decide) (by decide) (by decide) (by decide) (by decide)

/-- No transition leaves a terminal status in the coded table. -/
theorem can_transition_terminal (s t : LeaseStatus)
    (h : s = .COMPLETED ∨ s = .DEFAULTED) : can_transition s t = false := by
  rcases h with h | h <;> subst h <;> cases t <;> rfl

/-- Requested status updates out of a terminal status always raise. -/
theorem update_lease_status_terminal (st : LeaseSt) (s : LeaseStatus)
    (h : st.status = .COMPLETED ∨ st.status = .DEFAULTED) :
    update_lease_status st s = .error (PyExc.valueError "Invalid transition") := by
  unfold update_lease_status validate_transition
  rw [can_transition_terminal st.status s h]
  rfl

/-- Every single call leaves a lease in a terminal status entirely
unchanged. -/
theorem runOp_terminal (st : LeaseSt) (op : LeaseOp)
    (h : st.status = .COMPLETED ∨ st.status = .DEFAULTED) :
    runOp st op = st := by
  have hne1 : ¬ st.status = .PENDING := by rcases h with h | h <;> simp [h]
  have hne2 : ¬ st.status = .ACTIVE := by rcases h with h | h <;> simp [h]
  cases op with
  | updateStatus s => simp [runOp, update_lease_status_terminal st s h]
  | checkActivate => simp [runOp, check_and_activate, hne1]
  | checkComplete => simp [runOp, check_and_complete, hne2]
  | checkDefault => simp [runOp, check_and_default, hne1, hne2]

/-- C8. Terminal states are absorbing: if a lease is COMPLETED or
DEFAULTED, no sequence of update_lease_status, check_and_activate,
check_and_complete or check_and_default calls changes its state at all;
an explicitly requested transition raises the invalid-transition
ValueError, and each coordinator check returns false with the state
unmutated. -/
theorem c8_terminal_states_absorbing (st : LeaseSt)
    (h : st.status = .COMPLETED ∨ st.status = .DEFAULTED) :
    (∀ ops : List LeaseOp, runOps st ops = st)
    ∧ (∀ s, update_lease_status st s = .error (PyExc.valueError "Invalid transition"))
    ∧ check_and_activate st = .ok (false, st)
    ∧ check_and_complete st = .ok (false, st)
    ∧ check_and_default st = .ok (false, st) := by
  have hne1 : ¬ st.status = .PENDING := by rcases h with h | h <;> simp [h]
  have hne2 : ¬ st.status = .ACTIVE := by rcases h with h | h <;> simp [h]
  refine ⟨?_, fun s => update_lease_status_terminal st s h, ?_, ?_, ?_⟩
  · intro ops
    induction ops with
    | nil => rfl
    | cons op rest ih =>
      show runOps (runOp st op) rest = st
      rw [runOp_terminal st op h]
      exact ih
  · simp [check_and_activate, hne1]
  · simp [check_and_complete, hne2]
  · simp [check_and_default, hne1, hne2]

/-- C8 witness: a COMPLETED lease survives a concrete call sequence
unchanged, and each individual call behaves as stated. -/
theorem c8_terminal_states_absorbing_witness :
    runOps ⟨.COMPLETED, [], []⟩
        [LeaseOp.checkDefault, LeaseOp.updateStatus .ACTIVE, LeaseOp.checkComplete]
      = ⟨.COMPLETED, [], []⟩
    ∧ update_lease_status ⟨.COMPLETED, [], []⟩ .ACTIVE
      = .error (PyExc.valueError "Invalid transition")
    ∧ check_and_default ⟨.COMPLETED, [], []⟩ = .ok (false, ⟨.COMPLETED, [], []⟩) :=
  ⟨(c8_terminal_states_absorbing ⟨.COMPLETED, [], []⟩ (Or.inl rfl)).1 _,
   (c8_terminal_states_absorbing ⟨.COMPLETED, [], []⟩ (Or.inl rfl)).2.1 _,
   (c8_terminal_states_absorbing ⟨.COMPLETED, [], []⟩ (Or.inl rfl)).2.2.2.2⟩

/-- Sum of a constant list built over a range. -/
theorem sum_const_range (m : Int) : ∀ n : Nat, ((List.range n).map (fun _ => m)).sum = (n : Int) * m := by
  intro n
  induction n with
  | zero => simp
  | succ j ih =>
    rw [List.range_succ, List.map_append, List.sum_append, ih]
    simp
    ring

/-- The generated amounts always total the principal: k installments of m
cents plus a final installment of principal minus k * m cents. -/
theorem sumAmounts_schedule (p m : Int) (k : Nat) :
    sumAmounts ((List.range (k+1)).map (fun i =>
      (⟨i + 1, 30 * i, if i + 1 = k + 1 then p - m * Int.ofNat k else m⟩ : Installment))) = p := by
  unfold sumAmounts
  rw [List.map_map]
  have hcomp : ((fun (i : Installment) => i.amount) ∘ (fun i =>
      (⟨i + 1, 30 * i, if i + 1 = k + 1 then p - m * Int.ofNat k else m⟩ : Installment)))
      = fun i => if i + 1 = k + 1 then p - m * Int.ofNat k else m := rfl
  rw [hcomp, List.range_succ, List.map_append, List.sum_append]
  have hbase : (List.range k).map (fun i => if i + 1 = k + 1 then p - m * Int.ofNat k else m)
      = (List.range k).map (fun _ => m) := by
    apply List.map_congr_left
    intro i hi
    have hik : i < k := List.mem_range.mp hi
    rw [if_neg (by omega)]
  rw [hbase, sum_const_range]
  simp
  ring

/-- The generated installment numbers are the contiguous block 1..k+1. -/
theorem numbers_schedule (p m : Int) (k : Nat) :
    (((List.range (k+1)).map (fun i =>
      (⟨i + 1, 30 * i, if i + 1 = k + 1 then p - m * Int.ofNat k else m⟩ : Installment))).map
        (fun i => i.number))
      = (List.range (k+1)).map (fun i => i + 1) := by
  rw [List.map_map]
  rfl

/-- C4 counterexample. With principal 10.00 and term 60 (inside the
claimed ranges), the generated schedule sums exactly to the principal
but its final installment is -0.03, not strictly positive: quantize
half-even rounds 1000/60 cents up to 17, and 59 installments of 17 cents
overshoot the principal. -/
theorem c4_counterexample_negative_final_installment :
    (generate_equal_installments 1000 60).map (fun s => (sumAmounts s, lastAmount s))
      = .ok (1000, -3) := by rfl

/-- C4 amended. For every principal > 0 and term in 1..60 the generator
succeeds, the amounts sum exactly to the principal, and the installment
numbers are exactly the contiguous block 1..term; the final amount,
however, need not be strictly positive (it is principal minus
base*(term-1), which the counterexample shows can be negative). -/
theorem c4_amended_sum_and_contiguity (principal : Int) (term : Nat)
    (hp : 0 < principal) (h1 : 1 ≤ term) (h2 : term ≤ 60) :
    (generate_equal_installments principal term).map
        (fun s => (sumAmounts s, s.map (fun i => i.number)))
      = .ok (principal, (List.range term).map (fun i => i + 1)) := by
  obtain ⟨k, rfl⟩ : ∃ k, term = k + 1 := ⟨term - 1, by omega⟩
  have e1 : generate_equal_installments principal (k+1)
      = Except.ok ((List.range (k+1)).map (fun i =>
          (⟨i + 1, 30 * i,
            if i + 1 = k + 1 then
              principal - Int.ofNat (roundHalfEven principal.toNat (k+1)) * Int.ofNat k
            else Int.ofNat (roundHalfEven principal.toNat (k+1))⟩ : Installment))) := by
    unfold generate_equal_installments
    rw [if_neg (by omega), if_neg (by omega)]
    rfl
  rw [e1]
  simp only [Except.map]
  rw [sumAmounts_schedule, numbers_schedule]

/-- C4 amended, witness at principal 300.00 and term 3. -/
theorem c4_amended_sum_and_contiguity_witness :
    (generate_equal_installments 30000 3).map
        (fun s => (sumAmounts s, s.map (fun i => i.number)))
      = .ok (30000, (List.range 3).map (fun i => i + 1)) :=
  c4_amended_sum_and_contiguity 30000 3 (by decide) (by decide) (by decide)

/-- The per-event step of the source fold agrees with the per-event table
of the specification, including the PAYMENT_SUCCEEDED overwrite quirk
and the frame behaviour on unlisted types. -/
theorem applyEvent_eq_applyEventSpec (s : LeaseProjection) (e : LedgerEvent) :
    applyEvent s e = applyEventSpec s e := by
  by_cases h1 : e.event_type = "LEASE_CREATED"
  · simp [applyEvent, applyEventSpec, h1]
  · by_cases h2 : e.event_type = "PAYMENT_SCHEDULED"
    · simp [applyEvent, applyEventSpec, h1, h2]
    · by_cases h3 : e.event_type = "PAYMENT_ATTEMPTED"
      · simp [applyEvent, applyEventSpec, h1, h2, h3]
      · by_cases h4 : e.event_type = "PAYMENT_SUCCEEDED"
        · simp [applyEvent, applyEventSpec, h1, h2, h3, h4]
        · by_cases h5 : e.event_type = "PAYMENT_FAILED"
          · simp [applyEvent, applyEventSpec, h1, h2, h3, h4, h5]
          · by_cases h6 : e.event_type = "LEASE_COMPLETED"
            · simp [applyEvent, applyEventSpec, h1, h2, h3, h4, h5, h6]
            · by_cases h7 : e.event_type = "LEASE_DEFAULTED"
              · simp [applyEvent, applyEventSpec, h1, h2, h3, h4, h5, h6, h7]
              · simp [applyEvent, applyEventSpec, h1, h2, h3, h4, h5, h6, h7]

/-- Filtering with an everywhere-false predicate yields the empty list. -/
theorem filter_eq_nil_of_all_false {p : LedgerEvent → Bool} :
    ∀ l : List LedgerEvent, (∀ a ∈ l, p a = false) → l.filter p = [] := by
  intro l h
  induction l with
  | nil => rfl
  | cons a rest ih =>
    rw [List.filter_cons, h a (by simp)]
    exact ih (fun b hb => h b (by simp [hb]))

/-- On an event list whose timestamps are nondecreasing, breaking at the
first event past the cutoff (the source loop) computes the same
projection as skipping every event past the cutoff (the specification),
from any accumulator. -/
theorem reconstructAux_eq_foldSpec (pit : Option Nat) :
    ∀ (events : List LedgerEvent),
      List.Pairwise (fun a b => a.created_at ≤ b.created_at) events →
      ∀ s, reconstructAux pit s events
        = (events.filter (withinCutoff pit)).foldl applyEventSpec s := by
  intro events
  induction events with
  | nil => intro _ s; rfl
  | cons e rest ih =>
    intro hp s
    rw [List.pairwise_cons] at hp
    obtain ⟨hhead, htail⟩ := hp
    cases pit with
    | none =>
      rw [show reconstructAux none s (e :: rest) = reconstructAux none (applyEvent s e) rest from rfl]
      rw [show (e :: rest).filter (withinCutoff none) = e :: rest.filter (withinCutoff none) from rfl]
      rw [List.foldl_cons, ih htail, applyEvent_eq_applyEventSpec]
    | some t =>
      by_cases hc : t < e.created_at
      · rw [show reconstructAux (some t) s (e :: rest) = if t < e.created_at then s
            else reconstructAux (some t) (applyEvent s e) rest from rfl, if_pos hc]
        have hfe : withinCutoff (some t) e = false := by
          simp [withinCutoff]
          omega
        rw [List.filter_cons, hfe]
        rw [filter_eq_nil_of_all_false rest (fun b hb => by
          have : e.created_at ≤ b.created_at := hhead b hb
          simp [withinCutoff]
          omega)]
        rfl
      · rw [show reconstructAux (some t) s (e :: rest) = if t < e.created_at then s
            else reconstructAux (some t) (applyEvent s e) rest from rfl, if_neg hc]
        have hfe : withinCutoff (some t) e = true := by
          simp [withinCutoff]
          omega
        rw [List.filter_cons, hfe]
        simp only [if_true]
        rw [List.foldl_cons, ih htail, applyEvent_eq_applyEventSpec]

/-- C5 counterexample. On an event list whose timestamps are out of
order, the source fold and the specification fold disagree: with events
at timestamps 5 then 1 and cutoff 2, the source BREAKS at the first
event (returning the untouched initial projection) while the
specification SKIPS it and applies the second, so the claim quantified
over every event list is false. -/
theorem c5_counterexample_break_vs_skip :
    reconstruct_lease_state
        [⟨"PAYMENT_FAILED", 5, blankPayload⟩, ⟨"PAYMENT_FAILED", 1, blankPayload⟩] (some 2)
      ≠ foldSpec
        [⟨"PAYMENT_FAILED", 5, blankPayload⟩, ⟨"PAYMENT_FAILED", 1, blankPayload⟩] (some 2) := by
  intro h
  have := congrArg (fun p => p.event_count) h
  simp [reconstruct_lease_state, reconstructAux, foldSpec, withinCutoff,
    applyEventSpec, initialProjection, List.filter] at this

/-- C5 amended. For every event list whose created_at timestamps are
nondecreasing in sequence order (which ledger histories are: the source
reads them ordered by id) and every optional cutoff, the source fold
equals the projection prescribed by the specification's
event-to-transition table with events past the cutoff skipped: initial
projection PENDING with zero numerics and null identifiers,
LEASE_CREATED sets the identifiers and ACTIVE, PAYMENT_SUCCEEDED
overwrites totalPaid and increments paidInstallments, PAYMENT_FAILED
increments failedAttempts, LEASE_COMPLETED and LEASE_DEFAULTED set the
status, and eventCount increments on every applied event. -/
theorem c5_amended_fold_matches_spec_on_sorted (events : List LedgerEvent)
    (point_in_time : Option Nat)
    (hsorted : List.Pairwise (fun a b => a.created_at ≤ b.created_at) events) :
    reconstruct_lease_state events point_in_time = foldSpec events point_in_time :=
  reconstructAux_eq_foldSpec point_in_time events hsorted initialProjection

/-- C5 amended, witness: a sorted four-event history with a cutoff that
drops the last event. -/
theorem c5_amended_fold_witness :
    reconstruct_lease_state
        [⟨"LEASE_CREATED", 1, ⟨"L1", "CUST-001", 30000, 3, 0⟩⟩,
         ⟨"PAYMENT_SUCCEEDED", 2, ⟨"", "", 0, 0, 10000⟩⟩,
         ⟨"PAYMENT_FAILED", 3, blankPayload⟩,
         ⟨"LEASE_DEFAULTED", 9, blankPayload⟩] (some 5)
      = foldSpec
        [⟨"LEASE_CREATED", 1, ⟨"L1", "CUST-001", 30000, 3, 0⟩⟩,
         ⟨"PAYMENT_SUCCEEDED", 2, ⟨"", "", 0, 0, 10000⟩⟩,
         ⟨"PAYMENT_FAILED", 3, blankPayload⟩,
         ⟨"LEASE_DEFAULTED", 9, blankPayload⟩] (some 5) :=
  c5_amended_fold_matches_spec_on_sorted _ (some 5)
    (by simp [List.pairwise_cons])

/-- Python int() agrees with the floor on nonnegative rationals. -/
theorem pyInt_eq_floor {q : ℚ} (h : 0 ≤ q) : pyInt q = ⌊q⌋ := if_pos h

/-- Truncating a nonnegative rational does not increase it. -/
theorem pyInt_le {q : ℚ} (h : 0 ≤ q) : (pyInt q : ℚ) ≤ q := by
  rw [pyInt_eq_floor h]
  exact Int.floor_le q

/-- Truncation is monotone on nonnegative rationals. -/
theorem pyInt_mono {a b : ℚ} (ha : 0 ≤ a) (hab : a ≤ b) : pyInt a ≤ pyInt b := by
  rw [pyInt_eq_floor ha, pyInt_eq_floor (ha.trans hab)]
  exact Int.floor_le_floor hab

/-- The capped exponential delay is nonnegative for sane configurations. -/
theorem rawDelay_nonneg (c : RetryConfig) (n : Nat)
    (hb : 0 ≤ c.base_delay_seconds) (hm : 1 ≤ c.backoff_multiplier)
    (hc : 0 ≤ c.max_delay_seconds) : 0 ≤ rawDelay c n :=
  le_min (mul_nonneg hb (pow_nonneg (le_trans zero_le_one hm) n)) hc

/-- The capped exponential delay never exceeds the cap. -/
theorem rawDelay_le_cap (c : RetryConfig) (n : Nat) :
    rawDelay c n ≤ c.max_delay_seconds :=
  min_le_right _ _

/-- The capped exponential delay is nondecreasing in the attempt number
when the multiplier is at least one. -/
theorem rawDelay_mono (c : RetryConfig) (n : Nat)
    (hb : 0 ≤ c.base_delay_seconds) (hm : 1 ≤ c.backoff_multiplier) :
    rawDelay c n ≤ rawDelay c (n + 1) := by
  apply min_le_min _ le_rfl
  apply mul_le_mul_of_nonneg_left _ hb
  exact pow_le_pow_right₀ hm (Nat.le_succ n)

/-- Truncation maps integer-valued rationals to themselves. -/
theorem pyInt_intCast (n : ℤ) : pyInt (n : ℚ) = n := by
  unfold pyInt
  split
  · exact Int.floor_intCast n
  · rw [← Int.cast_neg, Int.floor_intCast, neg_neg]

/-- Evaluation principle for calculate_delay at integer-valued inputs. -/
theorem calc_delay_eval (c : RetryConfig) (n : Nat) (j : ℚ) (w : ℤ)
    (h1 : rawDelay c n + (if c.jitter then j else 0) = (w : ℚ)) :
    calculate_delay c n j = w := by
  unfold calculate_delay
  rw [h1, pyInt_intCast]

/-- The default configuration's capped delay at attempt 6 is the cap. -/
theorem rawDelay_default_6 : rawDelay default_retry_config 6 = 3600 := by
  show min ((60:ℚ) * 2 ^ 6) 3600 = 3600
  rw [min_eq_right (by norm_num)]

/-- C7 counterexample. The delay can exceed the cap when jitter is on,
because the source adds the jitter after applying the cap: with the
source's default configuration (base 60s, multiplier 2, cap 3600s,
jitter on), attempt 6 with an admissible jitter draw of 360 (which is
within [0, 0.1 * delay]) yields 3960 seconds, above the 3600-second cap.
Monotonicity for every configuration also fails: with multiplier 1/2 and
jitter off the delay falls from 100 to 50 without the cap ever being
reached. -/
theorem c7_counterexample_cap_and_monotonicity :
    ((0:ℚ) ≤ 360 ∧ (360:ℚ) ≤ rawDelay default_retry_config 6 / 10
      ∧ (3600:Int) < calculate_delay default_retry_config 6 360)
    ∧ (calculate_delay cfgHalf 1 0 < calculate_delay cfgHalf 0 0
      ∧ calculate_delay cfgHalf 0 0 < 3600) := by
  have hd : calculate_delay default_retry_config 6 360 = 3960 := by
    apply calc_delay_eval
    show min ((60:ℚ) * 2 ^ 6) 3600 + 360 = ((3960:ℤ):ℚ)
    rw [min_eq_right (by norm_num)]
    norm_num
  have h0 : calculate_delay cfgHalf 0 0 = 100 := by
    apply calc_delay_eval
    show min ((100:ℚ) * (1/2) ^ 0) 3600 + 0 = ((100:ℤ):ℚ)
    rw [min_eq_left (by norm_num)]
    norm_num
  have h1 : calculate_delay cfgHalf 1 0 = 50 := by
    apply calc_delay_eval
    show min ((100:ℚ) * (1/2) ^ 1) 3600 + 0 = ((50:ℤ):ℚ)
    rw [min_eq_left (by norm_num)]
    norm_num
  refine ⟨⟨by norm_num, ?_, ?_⟩, ?_, ?_⟩
  · rw [rawDelay_default_6]
    norm_num
  · rw [hd]
    norm_num
  · rw [h0, h1]
    norm_num
  · rw [h0]
    norm_num

/-- C7 amended. For every configuration with nonnegative base delay,
multiplier at least one and nonnegative cap, and every admissible jitter
draw j in [0, 0.1 * delay]: with jitter disabled the delay is
nondecreasing in the attempt number and never exceeds the cap; with
jitter enabled the delay is only bounded by cap + cap/10 (the jitter is
added after the cap), and the counterexample shows the cap itself can be
exceeded. -/
theorem c7_amended_backoff_bounds (c : RetryConfig) (n : Nat) (j : ℚ)
    (hb : 0 ≤ c.base_delay_seconds) (hm : 1 ≤ c.backoff_multiplier)
    (hc : 0 ≤ c.max_delay_seconds)
    (hj0 : 0 ≤ j) (hj1 : j ≤ rawDelay c n / 10) :
    (c.jitter = false →
      calculate_delay c n j ≤ calculate_delay c (n + 1) j
      ∧ (calculate_delay c n j : ℚ) ≤ c.max_delay_seconds)
    ∧ (c.jitter = true →
      (calculate_delay c n j : ℚ) ≤ c.max_delay_seconds + c.max_delay_seconds / 10) := by
  have hraw0 : 0 ≤ rawDelay c n := rawDelay_nonneg c n hb hm hc
  constructor
  · intro hjit
    have hcd : ∀ m : Nat, calculate_delay c m j = pyInt (rawDelay c m) := by
      intro m
      simp [calculate_delay, hjit]
    constructor
    · rw [hcd n, hcd (n + 1)]
      exact pyInt_mono hraw0 (rawDelay_mono c n hb hm)
    · rw [hcd n]
      calc (pyInt (rawDelay c n) : ℚ) ≤ rawDelay c n := pyInt_le hraw0
        _ ≤ c.max_delay_seconds := rawDelay_le_cap c n
  · intro hjit
    have hcd : calculate_delay c n j = pyInt (rawDelay c n + j) := by
      simp [calculate_delay, hjit]
    rw [hcd]
    have hcap : rawDelay c n ≤ c.max_delay_seconds := rawDelay_le_cap c n
    have h1 : (pyInt (rawDelay c n + j) : ℚ) ≤ rawDelay c n + j :=
      pyInt_le (add_nonneg hraw0 hj0)
    have h2 : j ≤ c.max_delay_seconds / 10 := by linarith
    linarith

/-- C7 amended, witness: the default configuration with jitter disabled
is monotone from attempt 0 to 1 and capped, and the jittered default
configuration at attempt 6 with jitter draw 360 stays within
cap + cap/10. -/
theorem c7_amended_backoff_bounds_witness :
    (calculate_delay cfgNoJit 0 0 ≤ calculate_delay cfgNoJit 1 0
      ∧ (calculate_delay cfgNoJit 0 0 : ℚ) ≤ cfgNoJit.max_delay_seconds)
    ∧ (calculate_delay default_retry_config 6 360 : ℚ)
      ≤ default_retry_config.max_delay_seconds + default_retry_config.max_delay_seconds / 10 :=
  ⟨(c7_amended_backoff_bounds cfgNoJit 0 0 (by norm_num [cfgNoJit])
      (by norm_num [cfgNoJit]) (by norm_num [cfgNoJit]) le_rfl
      (div_nonneg (rawDelay_nonneg cfgNoJit 0 (by norm_num [cfgNoJit])
        (by norm_num [cfgNoJit]) (by norm_num [cfgNoJit])) (by norm_num))).1 rfl,
   (c7_amended_backoff_bounds default_retry_config 6 360
      (by norm_num [default_retry_config]) (by norm_num [default_retry_config])
      (by norm_num [default_retry_config]) (by norm_num)
      (by rw [rawDelay_default_6]; norm_num)).2 rfl⟩

end LeaseOrch
